import Mathlib

/-!
Weex HTML5 storage module (`src/html5/browser/api/storage.js`).

A shallow embedding of the five bridge operations `setItem`, `getItem`,
`removeItem`, `length` and `getAllKeys`.  The module owns no state: every
operation reads or changes the browser's `localStorage` and answers through
`sender.performCallback`.  Both collaborators are made explicit in `World`:
the store's entries, the log of calls issued to the store, the envelopes
handed to the dispatcher and the messages given to `logger.error`.
-/

namespace Weex

/-! ## Constants (storage.js, lines 7-10) -/

def SUCCESS : String := "success"

def FAILED : String := "failed"

def INVALID_PARAM : String := "invalid_param"

/-- The marker for "no value": the source uses the string `'undefined'`. -/
def UNDEFINED : String := "undefined"

/-! ## Data model -/

/-- The callback identifier is opaque to the module; it is only passed on. -/
abbrev CallbackId := String

/-- The `data` field of an envelope: a string (a value or one of the
constants), the integer `localStorage.length`, or the array built by
`getAllKeys`, whose elements are what `localStorage.key(i)` returned
(`none` is JavaScript `null`). -/
inductive Payload where
  | str (s : String)
  | num (n : Nat)
  | arr (xs : List (Option String))
deriving DecidableEq, Repr

/-- The object literal passed to `sender.performCallback`. -/
structure Envelope where
  result : String
  data : Payload
deriving DecidableEq, Repr

/-- One call issued to `localStorage`. -/
inductive StoreOp where
  | setItem (k v : String)
  | getItem (k : String)
  | removeItem (k : String)
  | length
  | key (i : Nat)
deriving DecidableEq, Repr

/-- Everything outside the module that its operations read or change. -/
structure World where
  /-- the key/value pairs held by `localStorage`, in the order `key(i)` reports -/
  store : List (String × String)
  /-- the calls issued to `localStorage` so far -/
  accesses : List StoreOp
  /-- the calls made to `sender.performCallback` so far -/
  delivered : List (CallbackId × Envelope)
  /-- the messages passed to `logger.error` so far -/
  errors : List String
deriving DecidableEq, Repr

/-- What the host page fixes: whether `localStorage` exists (line 4) and,
for each store content, key and value, whether a write raises and with which
exception (`none`: the write goes through). -/
structure Host where
  supportLocalStorage : Bool
  writeError : List (String × String) → String → String → Option String

/-- How a call ends: normally, or by an exception that was not caught. -/
inductive Completion where
  | normal
  | throw (e : String)
deriving DecidableEq, Repr

/-! ## JavaScript coercions used by the module

A string argument is `some s`, an absent one (`undefined`, `null`) is `none`. -/

/-- JavaScript truthiness of a string-or-absent value: `!x` is `!truthy x`. -/
def truthy : Option String → Bool
  | none => false
  | some s => s != ""

/-- The string a host method receives for an argument. -/
def toStr : Option String → String
  | none => "undefined"
  | some s => s

/-- The expression `val || dflt` for a string-or-absent `val`. -/
def jsOr (val : Option String) (dflt : String) : String :=
  match val with
  | none => dflt
  | some s => if s != "" then s else dflt

/-! ## Collaborators -/

/-- The keys of the store, in positional order. -/
def keys (es : List (String × String)) : List String :=
  es.map Prod.fst

/-- The value held under `k`, if any. -/
def lookup (k : String) : List (String × String) → Option String
  | [] => none
  | (k1, v1) :: rest => if k1 = k then some v1 else lookup k rest

/-- Write `v` under `k`: replace the value in place when `k` is held, else
add the pair at the end. -/
def upsert (k v : String) : List (String × String) → List (String × String)
  | [] => [(k, v)]
  | (k1, v1) :: rest => if k1 = k then (k, v) :: rest else (k1, v1) :: upsert k v rest

/-- Drop the pair held under `k`. -/
def erase (k : String) (es : List (String × String)) : List (String × String) :=
  es.filter (fun p => p.1 != k)

/-- The store holds each key once, as a Web Storage area does. -/
def WF (es : List (String × String)) : Prop :=
  (keys es).Nodup

instance (es : List (String × String)) : Decidable (WF es) := by
  unfold WF; infer_instance

/-- Modelled from the spec: the browser's `localStorage.setItem(key, value)`,
absent from the repository (§6, "setItem(key, value) → void | raises").  A
write that raises leaves the entries as they were. -/
def localStorage.setItem (h : Host) (k v : String) (w : World) : Completion × World :=
  match h.writeError w.store k v with
  | some e => (.throw e, { w with accesses := w.accesses ++ [.setItem k v] })
  | none => (.normal, { w with store := upsert k v w.store,
                               accesses := w.accesses ++ [.setItem k v] })

/-- Modelled from the spec: `localStorage.getItem(key)` (§6, "getItem(key) →
string | absent"). -/
def localStorage.getItem (k : String) (w : World) : Option String × World :=
  (lookup k w.store, { w with accesses := w.accesses ++ [.getItem k] })

/-- Modelled from the spec: `localStorage.removeItem(key)` (§6,
"removeItem(key) → void"). -/
def localStorage.removeItem (k : String) (w : World) : World :=
  { w with store := erase k w.store, accesses := w.accesses ++ [.removeItem k] }

/-- Modelled from the spec: the `localStorage.length` property (§6). -/
def localStorage.length (w : World) : Nat × World :=
  (w.store.length, { w with accesses := w.accesses ++ [.length] })

/-- Modelled from the spec: `localStorage.key(index)` (§6), `null` outside
`0 ≤ index < length`. -/
def localStorage.key (i : Nat) (w : World) : Option String × World :=
  ((keys w.store).get? i, { w with accesses := w.accesses ++ [.key i] })

/-- Modelled from the spec: `sender.performCallback(callbackId, envelope)`,
defined outside `storage.js`; §6 takes the primitive as reliable, so it
records the delivery and completes normally. -/
def sender.performCallback (callbackId : CallbackId) (env : Envelope) (w : World) : World :=
  { w with delivered := w.delivered ++ [(callbackId, env)] }

/-- Modelled from the spec: `logger.error(msg)` of `../logger`, a diagnostic
side channel (§4.1). -/
def logger.error (msg : String) (w : World) : World :=
  { w with errors := w.errors ++ [msg] }

/-! ## The module (storage.js, lines 12-136) -/

/-- Lines 21-48. -/
def storage.setItem (h : Host) (key value : Option String) (callbackId : CallbackId)
    (w : World) : Completion × World :=
  if !h.supportLocalStorage then
    (.normal, logger.error "your browser is not support localStorage yet." w)
  else if !truthy key || !truthy value then
    (.normal, sender.performCallback callbackId ⟨"failed", .str INVALID_PARAM⟩ w)
  else
    match localStorage.setItem h (toStr key) (toStr value) w with
    | (.normal, w1) =>
      (.normal, sender.performCallback callbackId ⟨SUCCESS, .str UNDEFINED⟩ w1)
    | (.throw _, w1) =>
      (.normal, sender.performCallback callbackId ⟨FAILED, .str UNDEFINED⟩ w1)

/-- Lines 55-73. -/
def storage.getItem (h : Host) (key : Option String) (callbackId : CallbackId)
    (w : World) : Completion × World :=
  if !h.supportLocalStorage then
    (.normal, logger.error "your browser is not support localStorage yet." w)
  else if !truthy key then
    (.normal, sender.performCallback callbackId ⟨FAILED, .str INVALID_PARAM⟩ w)
  else
    match localStorage.getItem (toStr key) w with
    | (val, w1) =>
      (.normal, sender.performCallback callbackId
        ⟨if truthy val then SUCCESS else FAILED, .str (jsOr val UNDEFINED)⟩ w1)

/-- Lines 80-98. -/
def storage.removeItem (h : Host) (key : Option String) (callbackId : CallbackId)
    (w : World) : Completion × World :=
  if !h.supportLocalStorage then
    (.normal, logger.error "your browser is not support localStorage yet." w)
  else if !truthy key then
    (.normal, sender.performCallback callbackId ⟨FAILED, .str INVALID_PARAM⟩ w)
  else
    (.normal, sender.performCallback callbackId ⟨SUCCESS, .str UNDEFINED⟩
      (localStorage.removeItem (toStr key) w))

/-- Lines 104-115. -/
def storage.length (h : Host) (callbackId : CallbackId) (w : World) : Completion × World :=
  if !h.supportLocalStorage then
    (.normal, logger.error "your browser is not support localStorage yet." w)
  else
    match localStorage.length w with
    | (len, w1) => (.normal, sender.performCallback callbackId ⟨SUCCESS, .num len⟩ w1)

/-- Lines 128-130: the `for` loop of `getAllKeys`, entered with counter `i`
and array `arr`; `localStorage.length` is read before every round. -/
def storage.getAllKeys.loop (i : Nat) (arr : List (Option String)) (w : World) :
    List (Option String) × World :=
  if i < (localStorage.length w).1 then
    storage.getAllKeys.loop (i + 1)
      (arr ++ [(localStorage.key i (localStorage.length w).2).1])
      (localStorage.key i (localStorage.length w).2).2
  else
    (arr, (localStorage.length w).2)
termination_by w.store.length - i
decreasing_by
  simp only [localStorage.length, localStorage.key] at *
  omega

/-- Lines 121-135. -/
def storage.getAllKeys (h : Host) (callbackId : CallbackId) (w : World) : Completion × World :=
  if !h.supportLocalStorage then
    (.normal, logger.error "your browser is not support localStorage yet." w)
  else
    match storage.getAllKeys.loop 0 [] w with
    | (arr, w1) => (.normal, sender.performCallback callbackId ⟨SUCCESS, .arr arr⟩ w1)

/-! ## Sample hosts and worlds -/

/-- A page with `localStorage` whose writes never raise. -/
def hostOk : Host := ⟨true, fun _ _ _ => none⟩

/-- A page with `localStorage` whose every write raises a quota error. -/
def hostFull : Host := ⟨true, fun _ _ _ => some "QuotaExceededError"⟩

/-- A page without `localStorage`. -/
def hostNone : Host := ⟨false, fun _ _ _ => none⟩

/-- A fresh page: empty store, nothing logged or delivered. -/
def emptyWorld : World := ⟨[], [], [], []⟩

/-- A page whose store holds `a`, `b` and an entry with the empty value. -/
def sampleWorld : World := ⟨[("a", "1"), ("b", "2"), ("e", "")], [], [], []⟩

/-- A page whose store holds one value, under the empty key. -/
def emptyKeyWorld : World := ⟨[("", "x")], [], [], []⟩

/-! ## Facts about the store model -/

theorem lookup_upsert_self (k v : String) (es : List (String × String)) :
    lookup k (upsert k v es) = some v := by
  induction es with
  | nil => simp [upsert, lookup]
  | cons p rest ih =>
    obtain ⟨k1, v1⟩ := p
    by_cases hk : k1 = k
    · simp [upsert, lookup, hk]
    · simp [upsert, lookup, hk, ih]

theorem lookup_erase_self (k : String) (es : List (String × String)) :
    lookup k (erase k es) = none := by
  induction es with
  | nil => simp [erase, lookup]
  | cons p rest ih =>
    obtain ⟨k1, v1⟩ := p
    by_cases hk : k1 = k
    · simpa [erase, hk] using ih
    · simpa [erase, hk, lookup] using ih

theorem mem_keys_iff_lookup (k : String) (es : List (String × String)) :
    k ∈ keys es ↔ (lookup k es).isSome = true := by
  induction es with
  | nil => simp [keys, lookup]
  | cons p rest ih =>
    obtain ⟨k1, v1⟩ := p
    by_cases hk : k1 = k
    · simp [keys, lookup, hk]
    · have hk2 : ¬ k = k1 := fun e => hk e.symm
      simp only [keys, List.map_cons, List.mem_cons, lookup, hk, hk2, if_false, false_or]
      simpa [keys] using ih

theorem length_upsert (k v : String) (es : List (String × String)) :
    (upsert k v es).length = if k ∈ keys es then es.length else es.length + 1 := by
  induction es with
  | nil => simp [upsert, keys]
  | cons p rest ih =>
    obtain ⟨k1, v1⟩ := p
    by_cases hk : k1 = k
    · simp [upsert, keys, hk]
    · have hk2 : ¬ k = k1 := fun e => hk e.symm
      simp only [upsert, hk, if_false, List.length_cons, ih, keys, List.map_cons, List.mem_cons,
        hk2, false_or]
      split <;> rfl

theorem keys_upsert (k v : String) (es : List (String × String)) :
    keys (upsert k v es) = if k ∈ keys es then keys es else keys es ++ [k] := by
  induction es with
  | nil => simp [upsert, keys]
  | cons p rest ih =>
    obtain ⟨k1, v1⟩ := p
    by_cases hk : k1 = k
    · simp [upsert, keys, hk]
    · have hk2 : ¬ k = k1 := fun e => hk e.symm
      have ih2 := ih
      simp only [keys] at ih2
      simp only [upsert, hk, if_false, keys, List.map_cons, List.mem_cons, hk2, false_or, ih2]
      split <;> simp

theorem keys_erase (k : String) (es : List (String × String)) :
    keys (erase k es) = (keys es).filter (fun x => x != k) := by
  induction es with
  | nil => simp [erase, keys]
  | cons p rest ih =>
    obtain ⟨k1, v1⟩ := p
    have ih2 := ih
    simp only [keys, erase] at ih2
    by_cases hk : k1 = k
    · simp [erase, keys, hk, ih2]
    · simp [erase, keys, hk, ih2]

/-- Writing keeps the keys distinct. -/
theorem WF_upsert (k v : String) (es : List (String × String)) (hwf : WF es) :
    WF (upsert k v es) := by
  unfold WF at *
  rw [keys_upsert]
  split
  · exact hwf
  · rename_i hk
    exact List.Nodup.append hwf (List.nodup_singleton k) (by simpa using hk)

/-- Removing keeps the keys distinct. -/
theorem WF_erase (k : String) (es : List (String × String)) (hwf : WF es) :
    WF (erase k es) := by
  unfold WF at *
  rw [keys_erase]
  exact hwf.filter _

theorem length_erase_of_not_mem (k : String) (es : List (String × String))
    (hk : k ∉ keys es) : erase k es = es := by
  induction es with
  | nil => simp [erase]
  | cons p rest ih =>
    obtain ⟨k1, v1⟩ := p
    simp only [keys, List.map_cons, List.mem_cons, not_or] at hk
    have h1 : ¬ k1 = k := fun e => hk.1 e.symm
    have ih2 := ih (by simpa [keys] using hk.2)
    simp only [erase] at ih2
    simp [erase, h1, ih2]

theorem length_erase_of_mem (k : String) (es : List (String × String)) (hwf : WF es)
    (hk : k ∈ keys es) : (erase k es).length + 1 = es.length := by
  induction es with
  | nil => simp [keys] at hk
  | cons p rest ih =>
    obtain ⟨k1, v1⟩ := p
    have hnd : k1 ∉ keys rest ∧ WF rest := by
      simpa [WF, keys] using hwf
    by_cases h1 : k1 = k
    · subst h1
      have := length_erase_of_not_mem k1 rest hnd.1
      simp only [erase] at this
      simp [erase, this]
    · have hk2 : k ∈ keys rest := by
        have : ¬ k = k1 := fun e => h1 e.symm
        simpa [keys, this] using hk
      have := ih hnd.2 hk2
      simp only [erase] at this
      simp [erase, h1, this]

theorem get?_cons_drop_succ (ks : List String) :
    ∀ i : Nat, i < ks.length →
      (ks.drop i).map some = ks.get? i :: (ks.drop (i + 1)).map some := by
  induction ks with
  | nil => intro i hi; simp at hi
  | cons k rest ih =>
    intro i hi
    cases i with
    | zero => simp
    | succ j =>
      have hj : j < rest.length := by simpa using hi
      simpa using ih j hj

/-- The loop of `getAllKeys` entered at counter `i` appends the keys at
positions `i, i+1, ...` and changes nothing but the access log. -/
theorem getAllKeys_loop_spec (n : Nat) :
    ∀ (i : Nat) (arr : List (Option String)) (w : World), w.store.length - i = n →
      (storage.getAllKeys.loop i arr w).1 = arr ++ ((keys w.store).drop i).map some ∧
      (storage.getAllKeys.loop i arr w).2.store = w.store ∧
      (storage.getAllKeys.loop i arr w).2.delivered = w.delivered ∧
      (storage.getAllKeys.loop i arr w).2.errors = w.errors := by
  induction n with
  | zero =>
    intro i arr w hn
    have hlt : ¬ i < w.store.length := by omega
    rw [storage.getAllKeys.loop]
    have hd : (keys w.store).drop i = [] := by
      apply List.drop_eq_nil_of_le
      simp [keys]; omega
    simp [localStorage.length, hlt, hd]
  | succ n ih =>
    intro i arr w hn
    have hlt : i < w.store.length := by omega
    rw [storage.getAllKeys.loop]
    have hlt2 : i < (keys w.store).length := by simpa [keys] using hlt
    have hd := get?_cons_drop_succ (keys w.store) i hlt2
    have key := ih (i + 1) (arr ++ [(localStorage.key i (localStorage.length w).2).1])
      (localStorage.key i (localStorage.length w).2).2
      (by simp [localStorage.key, localStorage.length]; omega)
    simp only [localStorage.length, hlt, if_true]
    simp only [localStorage.length] at key
    refine ⟨?_, ?_, ?_, ?_⟩
    · rw [key.1, hd]
      simp [localStorage.key]
    · rw [key.2.1]; simp [localStorage.key]
    · rw [key.2.2.1]; simp [localStorage.key]
    · rw [key.2.2.2]; simp [localStorage.key]

/-- The array `getAllKeys` builds: every key, in positional order. -/
theorem getAllKeys_loop_zero (w : World) :
    (storage.getAllKeys.loop 0 [] w).1 = (keys w.store).map some ∧
    (storage.getAllKeys.loop 0 [] w).2.store = w.store ∧
    (storage.getAllKeys.loop 0 [] w).2.delivered = w.delivered ∧
    (storage.getAllKeys.loop 0 [] w).2.errors = w.errors := by
  simpa using getAllKeys_loop_spec (w.store.length - 0) 0 [] w rfl

theorem map_some_eq_range_get? (l : List String) :
    l.map some = (List.range l.length).map (fun i => l.get? i) := by
  apply List.ext_get?
  intro n
  by_cases hn : n < l.length
  · simp [List.get?_eq_getElem?, List.getElem?_map, List.getElem?_range, hn,
      List.getElem?_eq_getElem]
  · have h1 : l.length ≤ n := by omega
    simp [List.get?_eq_getElem?, List.getElem?_map, h1, List.getElem?_eq_none]

/-- Each of the five operations keeps the keys of the store distinct. -/
theorem operations_preserve_WF (h : Host) (w : World) (key value : Option String)
    (cb : CallbackId) (hwf : WF w.store) :
    WF (storage.setItem h key value cb w).2.store ∧
    WF (storage.getItem h key cb w).2.store ∧
    WF (storage.removeItem h key cb w).2.store ∧
    WF (storage.length h cb w).2.store ∧
    WF (storage.getAllKeys h cb w).2.store := by
  refine ⟨?_, ?_, ?_, ?_, ?_⟩
  · unfold storage.setItem
    split
    · simpa [logger.error] using hwf
    · split
      · simpa [sender.performCallback] using hwf
      · cases hw : h.writeError w.store (toStr key) (toStr value) with
        | none =>
          simpa [localStorage.setItem, hw, sender.performCallback]
            using WF_upsert (toStr key) (toStr value) w.store hwf
        | some e => simpa [localStorage.setItem, hw, sender.performCallback] using hwf
  · unfold storage.getItem
    split
    · simpa [logger.error] using hwf
    · split
      · simpa [sender.performCallback] using hwf
      · simpa [localStorage.getItem, sender.performCallback] using hwf
  · unfold storage.removeItem
    split
    · simpa [logger.error] using hwf
    · split
      · simpa [sender.performCallback] using hwf
      · simpa [localStorage.removeItem, sender.performCallback]
          using WF_erase (toStr key) w.store hwf
  · unfold storage.length
    split
    · simpa [logger.error] using hwf
    · simpa [localStorage.length, sender.performCallback] using hwf
  · unfold storage.getAllKeys
    split
    · simpa [logger.error] using hwf
    · simpa [sender.performCallback, (getAllKeys_loop_zero w).2.1] using hwf

/-! ## The contract of the module -/

/-- C1: with the store available and a write that does not raise, `setItem`
with a non-empty key and a non-empty value followed by `getItem` of the same
key hands the dispatcher `{success, undefined}` for the first callback and
`{success, value}` for the second, whatever the store held before (key absent
or key held with another value). -/
theorem setItem_getItem_roundtrip (h : Host) (w : World) (k v : String)
    (cb1 cb2 : CallbackId) (hs : h.supportLocalStorage = true) (hk : k ≠ "") (hv : v ≠ "")
    (hw : h.writeError w.store k v = none) :
    (storage.getItem h (some k) cb2
        (storage.setItem h (some k) (some v) cb1 w).2).2.delivered
      = w.delivered ++ [(cb1, ⟨SUCCESS, .str UNDEFINED⟩), (cb2, ⟨SUCCESS, .str v⟩)] := by
  simp [storage.setItem, storage.getItem, hs, truthy, hk, hv, toStr, localStorage.setItem, hw,
    localStorage.getItem, sender.performCallback, lookup_upsert_self, jsOr]

/-- The round trip of C1 on a fresh store (add) and on a store that already
holds the key (update). -/
theorem setItem_getItem_roundtrip_witness :
    ((storage.getItem hostOk (some "k") "cb2"
        (storage.setItem hostOk (some "k") (some "v") "cb1" emptyWorld).2).2.delivered
      = emptyWorld.delivered ++
          [("cb1", ⟨SUCCESS, .str UNDEFINED⟩), ("cb2", ⟨SUCCESS, .str "v"⟩)]) ∧
    ((storage.getItem hostOk (some "a") "cb2"
        (storage.setItem hostOk (some "a") (some "9") "cb1" sampleWorld).2).2.delivered
      = sampleWorld.delivered ++
          [("cb1", ⟨SUCCESS, .str UNDEFINED⟩), ("cb2", ⟨SUCCESS, .str "9"⟩)]) :=
  ⟨setItem_getItem_roundtrip hostOk emptyWorld "k" "v" "cb1" "cb2" rfl (by decide) (by decide) rfl,
   setItem_getItem_roundtrip hostOk sampleWorld "a" "9" "cb1" "cb2" rfl (by decide) (by decide) rfl⟩

/-- C2 as stated fails: `setItem("", "v", cb)` and `setItem("k", "", cb)` on an
available store deliver `{failed, invalid_param}`, which is not the envelope
`{invalid_param, undefined}`. -/
theorem setItem_invalid_not_invalid_param_undefined :
    (storage.setItem hostOk (some "") (some "v") "cb" emptyWorld).2.delivered
        = [("cb", ⟨FAILED, .str INVALID_PARAM⟩)] ∧
    (storage.setItem hostOk (some "k") (some "") "cb" emptyWorld).2.delivered
        = [("cb", ⟨FAILED, .str INVALID_PARAM⟩)] ∧
    (storage.setItem hostOk (some "") (some "v") "cb" emptyWorld).2.delivered
        ≠ [("cb", ⟨INVALID_PARAM, .str UNDEFINED⟩)] ∧
    (storage.setItem hostOk (some "k") (some "") "cb" emptyWorld).2.delivered
        ≠ [("cb", ⟨INVALID_PARAM, .str UNDEFINED⟩)] := by
  decide

/-- C2, amended: with the store available, `setItem` called with an empty or
absent key, or with an empty or absent value, delivers exactly one envelope,
`{failed, invalid_param}`: the outcome is `failed` and `invalid_param` is the
payload, as for `getItem` and `removeItem`. -/
theorem setItem_invalid_delivers_failed_invalid_param (h : Host) (w : World)
    (key value : Option String) (cb : CallbackId) (hs : h.supportLocalStorage = true)
    (hbad : truthy key = false ∨ truthy value = false) :
    (storage.setItem h key value cb w).2.delivered
      = w.delivered ++ [(cb, ⟨FAILED, .str INVALID_PARAM⟩)] := by
  rcases hbad with hb | hb <;>
    simp [storage.setItem, hs, hb, sender.performCallback, FAILED]

/-- The amended C2 at `setItem("", "v", cb)`, `setItem("k", "", cb)` and at an
absent key. -/
theorem setItem_invalid_delivers_failed_invalid_param_witness :
    ((storage.setItem hostOk (some "") (some "v") "cb" sampleWorld).2.delivered
      = sampleWorld.delivered ++ [("cb", ⟨FAILED, .str INVALID_PARAM⟩)]) ∧
    ((storage.setItem hostOk (some "k") (some "") "cb" sampleWorld).2.delivered
      = sampleWorld.delivered ++ [("cb", ⟨FAILED, .str INVALID_PARAM⟩)]) ∧
    ((storage.setItem hostOk none (some "v") "cb" sampleWorld).2.delivered
      = sampleWorld.delivered ++ [("cb", ⟨FAILED, .str INVALID_PARAM⟩)]) :=
  ⟨setItem_invalid_delivers_failed_invalid_param hostOk sampleWorld (some "") (some "v") "cb"
      rfl (Or.inl (by decide)),
   setItem_invalid_delivers_failed_invalid_param hostOk sampleWorld (some "k") (some "") "cb"
      rfl (Or.inr (by decide)),
   setItem_invalid_delivers_failed_invalid_param hostOk sampleWorld none (some "v") "cb"
      rfl (Or.inl (by decide))⟩

/-- C3: with the store available and a non-empty key, `getItem` delivers one
envelope; it is `{success, v}` exactly when the store holds the non-empty
value `v` under the key, and `{failed, undefined}` exactly when the key is
absent or held with the empty value. -/
theorem getItem_found_or_failed (h : Host) (w : World) (k : String) (cb : CallbackId)
    (hs : h.supportLocalStorage = true) (hk : k ≠ "") :
    ∃ env : Envelope,
      (storage.getItem h (some k) cb w).2.delivered = w.delivered ++ [(cb, env)] ∧
      (∀ v : String, env = ⟨SUCCESS, .str v⟩ ↔ (lookup k w.store = some v ∧ v ≠ "")) ∧
      (env = ⟨FAILED, .str UNDEFINED⟩ ↔
        (lookup k w.store = none ∨ lookup k w.store = some "")) := by
  refine ⟨⟨if truthy (lookup k w.store) then SUCCESS else FAILED,
    .str (jsOr (lookup k w.store) UNDEFINED)⟩, ?_, ?_, ?_⟩
  · simp [storage.getItem, hs, truthy, hk, toStr, localStorage.getItem, sender.performCallback]
  · intro v
    cases hl : lookup k w.store with
    | none => simp [truthy, jsOr, SUCCESS, FAILED]
    | some x =>
      by_cases hx : x = ""
      · subst hx
        simp [truthy, jsOr, SUCCESS, FAILED]
        intro hv; exact hv.symm
      · simp [truthy, jsOr, hx]
        intro hv; subst hv; exact hx
  · cases hl : lookup k w.store with
    | none => simp [truthy, jsOr]
    | some x =>
      by_cases hx : x = ""
      · subst hx; simp [truthy, jsOr]
      · simp [truthy, jsOr, hx, SUCCESS, FAILED]

/-- C3 on concrete stores: a missing key on an empty store, a key held with
the empty value, and a key held with a non-empty value. -/
theorem getItem_found_or_failed_witness :
    (storage.getItem hostOk (some "missing-key") "cb" emptyWorld).2.delivered
      = [("cb", ⟨FAILED, .str UNDEFINED⟩)] ∧
    (storage.getItem hostOk (some "e") "cb" sampleWorld).2.delivered
      = [("cb", ⟨FAILED, .str UNDEFINED⟩)] ∧
    (storage.getItem hostOk (some "a") "cb" sampleWorld).2.delivered
      = [("cb", ⟨SUCCESS, .str "1"⟩)] := by
  refine ⟨?_, ?_, ?_⟩
  · obtain ⟨env, hd, _, hf⟩ :=
      getItem_found_or_failed hostOk emptyWorld "missing-key" "cb" rfl (by decide)
    rw [hd, hf.mpr (Or.inl (by decide))]; rfl
  · obtain ⟨env, hd, _, hf⟩ :=
      getItem_found_or_failed hostOk sampleWorld "e" "cb" rfl (by decide)
    rw [hd, hf.mpr (Or.inr (by decide))]; rfl
  · obtain ⟨env, hd, hv, _⟩ :=
      getItem_found_or_failed hostOk sampleWorld "a" "cb" rfl (by decide)
    rw [hd, (hv "1").mpr ⟨by decide, by decide⟩]; rfl

/-- C4: with the store available, `getItem` and `removeItem` called with an
empty or absent key each deliver exactly `{failed, invalid_param}`: `failed`
is the outcome and `invalid_param` the payload. -/
theorem getItem_removeItem_invalid_key (h : Host) (w : World) (key : Option String)
    (cb : CallbackId) (hs : h.supportLocalStorage = true) (hbad : truthy key = false) :
    (storage.getItem h key cb w).2.delivered
        = w.delivered ++ [(cb, ⟨FAILED, .str INVALID_PARAM⟩)] ∧
    (storage.removeItem h key cb w).2.delivered
        = w.delivered ++ [(cb, ⟨FAILED, .str INVALID_PARAM⟩)] := by
  simp [storage.getItem, storage.removeItem, hs, hbad, sender.performCallback]

/-- C4 at the empty key and at an absent key. -/
theorem getItem_removeItem_invalid_key_witness :
    ((storage.getItem hostOk (some "") "cb" sampleWorld).2.delivered
        = sampleWorld.delivered ++ [("cb", ⟨FAILED, .str INVALID_PARAM⟩)] ∧
     (storage.removeItem hostOk (some "") "cb" sampleWorld).2.delivered
        = sampleWorld.delivered ++ [("cb", ⟨FAILED, .str INVALID_PARAM⟩)]) ∧
    ((storage.getItem hostOk none "cb" sampleWorld).2.delivered
        = sampleWorld.delivered ++ [("cb", ⟨FAILED, .str INVALID_PARAM⟩)] ∧
     (storage.removeItem hostOk none "cb" sampleWorld).2.delivered
        = sampleWorld.delivered ++ [("cb", ⟨FAILED, .str INVALID_PARAM⟩)]) :=
  ⟨getItem_removeItem_invalid_key hostOk sampleWorld (some "") "cb" rfl (by decide),
   getItem_removeItem_invalid_key hostOk sampleWorld none "cb" rfl (by decide)⟩

/-- C5: with the store available and a non-empty key, `removeItem` delivers
`{success, undefined}` whether or not the key was held, and a `getItem` for
the same key issued right after delivers `{failed, undefined}`. -/
theorem removeItem_then_getItem (h : Host) (w : World) (k : String) (cb1 cb2 : CallbackId)
    (hs : h.supportLocalStorage = true) (hk : k ≠ "") :
    (storage.removeItem h (some k) cb1 w).2.delivered
        = w.delivered ++ [(cb1, ⟨SUCCESS, .str UNDEFINED⟩)] ∧
    (storage.getItem h (some k) cb2 (storage.removeItem h (some k) cb1 w).2).2.delivered
        = w.delivered ++ [(cb1, ⟨SUCCESS, .str UNDEFINED⟩), (cb2, ⟨FAILED, .str UNDEFINED⟩)] := by
  simp [storage.removeItem, storage.getItem, hs, truthy, hk, toStr, localStorage.removeItem,
    localStorage.getItem, sender.performCallback, lookup_erase_self, jsOr]

/-- C5 for a key the store holds and for a key it does not hold. -/
theorem removeItem_then_getItem_witness :
    ((storage.removeItem hostOk (some "a") "cb1" sampleWorld).2.delivered
        = sampleWorld.delivered ++ [("cb1", ⟨SUCCESS, .str UNDEFINED⟩)] ∧
     (storage.getItem hostOk (some "a") "cb2"
        (storage.removeItem hostOk (some "a") "cb1" sampleWorld).2).2.delivered
        = sampleWorld.delivered ++
            [("cb1", ⟨SUCCESS, .str UNDEFINED⟩), ("cb2", ⟨FAILED, .str UNDEFINED⟩)]) ∧
    ((storage.removeItem hostOk (some "any-key") "cb1" emptyWorld).2.delivered
        = emptyWorld.delivered ++ [("cb1", ⟨SUCCESS, .str UNDEFINED⟩)] ∧
     (storage.getItem hostOk (some "any-key") "cb2"
        (storage.removeItem hostOk (some "any-key") "cb1" emptyWorld).2).2.delivered
        = emptyWorld.delivered ++
            [("cb1", ⟨SUCCESS, .str UNDEFINED⟩), ("cb2", ⟨FAILED, .str UNDEFINED⟩)]) :=
  ⟨removeItem_then_getItem hostOk sampleWorld "a" "cb1" "cb2" rfl (by decide),
   removeItem_then_getItem hostOk emptyWorld "any-key" "cb1" "cb2" rfl (by decide)⟩

/-- C6: for every host and world, (1) with the store available and a
non-empty key and value, a write that raises (with whatever exception `e`)
makes `setItem` complete normally, deliver exactly `{failed, undefined}` and
leave the entries as they were; (2) for any arguments, on any host, the
entries differ after `setItem` only when the envelope delivered is
`{success, undefined}`. -/
theorem setItem_write_raises (h : Host) (w : World) :
    (∀ (k v : String) (cb : CallbackId) (e : String),
      h.supportLocalStorage = true → k ≠ "" → v ≠ "" →
      h.writeError w.store k v = some e →
        (storage.setItem h (some k) (some v) cb w).1 = Completion.normal ∧
        (storage.setItem h (some k) (some v) cb w).2.delivered
            = w.delivered ++ [(cb, ⟨FAILED, .str UNDEFINED⟩)] ∧
        (storage.setItem h (some k) (some v) cb w).2.store = w.store) ∧
    (∀ (key value : Option String) (cb : CallbackId),
      (storage.setItem h key value cb w).2.store ≠ w.store →
        (storage.setItem h key value cb w).2.delivered
          = w.delivered ++ [(cb, ⟨SUCCESS, .str UNDEFINED⟩)]) := by
  constructor
  · intro k v cb e hs hk hv hw
    refine ⟨?_, ?_, ?_⟩
    · simp [storage.setItem, hs, truthy, hk, hv, toStr, localStorage.setItem, hw]
    · simp [storage.setItem, hs, truthy, hk, hv, toStr, localStorage.setItem, hw,
        sender.performCallback]
    · simp [storage.setItem, hs, truthy, hk, hv, toStr, localStorage.setItem, hw,
        sender.performCallback]
  · intro key value cb
    unfold storage.setItem
    split
    · simp [logger.error]
    · split
      · simp [sender.performCallback]
      · cases hw2 : h.writeError w.store (toStr key) (toStr value) with
        | none => simp [localStorage.setItem, hw2, sender.performCallback]
        | some e2 => simp [localStorage.setItem, hw2, sender.performCallback]

/-- C6 on a page whose store rejects every write (part 1), and on a page
whose write goes through and changes the entries (part 2). -/
theorem setItem_write_raises_witness :
    ((storage.setItem hostFull (some "a") (some "9") "cb" sampleWorld).1 = Completion.normal ∧
     (storage.setItem hostFull (some "a") (some "9") "cb" sampleWorld).2.delivered
        = sampleWorld.delivered ++ [("cb", ⟨FAILED, .str UNDEFINED⟩)] ∧
     (storage.setItem hostFull (some "a") (some "9") "cb" sampleWorld).2.store
        = sampleWorld.store) ∧
    ((storage.setItem hostOk (some "c") (some "3") "cb" sampleWorld).2.store
        ≠ sampleWorld.store ∧
     (storage.setItem hostOk (some "c") (some "3") "cb" sampleWorld).2.delivered
        = sampleWorld.delivered ++ [("cb", ⟨SUCCESS, .str UNDEFINED⟩)]) :=
  ⟨(setItem_write_raises hostFull sampleWorld).1 "a" "9" "cb" "QuotaExceededError"
      rfl (by decide) (by decide) rfl,
   ⟨by decide,
    (setItem_write_raises hostOk sampleWorld).2 (some "c") (some "3") "cb" (by decide)⟩⟩

/-- C7: for each of the five operations, any arguments and any world: with
the store available the dispatcher receives exactly one envelope, addressed to
the callback identifier passed in; with the store unavailable the dispatcher
receives nothing, no call is issued to the store and its entries stay. -/
theorem dispatcher_once_or_silent (h : Host) (w : World) (key value : Option String)
    (cb : CallbackId) :
    (h.supportLocalStorage = true →
      (∃ env, (storage.setItem h key value cb w).2.delivered = w.delivered ++ [(cb, env)]) ∧
      (∃ env, (storage.getItem h key cb w).2.delivered = w.delivered ++ [(cb, env)]) ∧
      (∃ env, (storage.removeItem h key cb w).2.delivered = w.delivered ++ [(cb, env)]) ∧
      (∃ env, (storage.length h cb w).2.delivered = w.delivered ++ [(cb, env)]) ∧
      (∃ env, (storage.getAllKeys h cb w).2.delivered = w.delivered ++ [(cb, env)])) ∧
    (h.supportLocalStorage = false →
      ((storage.setItem h key value cb w).2.delivered = w.delivered ∧
        (storage.setItem h key value cb w).2.accesses = w.accesses ∧
        (storage.setItem h key value cb w).2.store = w.store) ∧
      ((storage.getItem h key cb w).2.delivered = w.delivered ∧
        (storage.getItem h key cb w).2.accesses = w.accesses ∧
        (storage.getItem h key cb w).2.store = w.store) ∧
      ((storage.removeItem h key cb w).2.delivered = w.delivered ∧
        (storage.removeItem h key cb w).2.accesses = w.accesses ∧
        (storage.removeItem h key cb w).2.store = w.store) ∧
      ((storage.length h cb w).2.delivered = w.delivered ∧
        (storage.length h cb w).2.accesses = w.accesses ∧
        (storage.length h cb w).2.store = w.store) ∧
      ((storage.getAllKeys h cb w).2.delivered = w.delivered ∧
        (storage.getAllKeys h cb w).2.accesses = w.accesses ∧
        (storage.getAllKeys h cb w).2.store = w.store)) := by
  constructor
  · intro hs
    refine ⟨?_, ?_, ?_, ?_, ?_⟩
    · unfold storage.setItem
      simp only [hs, Bool.not_true, Bool.false_eq_true, if_false]
      split
      · simp [sender.performCallback]
      · cases hw : h.writeError w.store (toStr key) (toStr value) with
        | none => simp [localStorage.setItem, hw, sender.performCallback]
        | some e => simp [localStorage.setItem, hw, sender.performCallback]
    · unfold storage.getItem
      simp only [hs, Bool.not_true, Bool.false_eq_true, if_false]
      split
      · simp [sender.performCallback]
      · simp [localStorage.getItem, sender.performCallback]
    · unfold storage.removeItem
      simp only [hs, Bool.not_true, Bool.false_eq_true, if_false]
      split
      · simp [sender.performCallback]
      · simp [localStorage.removeItem, sender.performCallback]
    · simp [storage.length, hs, localStorage.length, sender.performCallback]
    · simp [storage.getAllKeys, hs, sender.performCallback,
        (getAllKeys_loop_zero w).2.2.1]
  · intro hs
    simp [storage.setItem, storage.getItem, storage.removeItem, storage.length,
      storage.getAllKeys, hs, logger.error]

/-- C7 on a page with `localStorage` and on a page without it. -/
theorem dispatcher_once_or_silent_witness :
    ((∃ env, (storage.setItem hostOk (some "a") (some "9") "cb" sampleWorld).2.delivered
        = sampleWorld.delivered ++ [("cb", env)]) ∧
     (∃ env, (storage.getAllKeys hostOk "cb" sampleWorld).2.delivered
        = sampleWorld.delivered ++ [("cb", env)])) ∧
    ((storage.setItem hostNone (some "a") (some "9") "cb" sampleWorld).2.delivered
        = sampleWorld.delivered ∧
     (storage.getAllKeys hostNone "cb" sampleWorld).2.accesses = sampleWorld.accesses) :=
  have t1 := (dispatcher_once_or_silent hostOk sampleWorld (some "a") (some "9") "cb").1 rfl
  have t2 := (dispatcher_once_or_silent hostNone sampleWorld (some "a") (some "9") "cb").2 rfl
  ⟨⟨t1.1, t1.2.2.2.2⟩, ⟨t2.1.1, t2.2.2.2.2.2.1⟩⟩

/-- C8: with the store available and its keys distinct, `getAllKeys` delivers
`{success, ks}` where `ks` is `[key(0), ..., key(N-1)]` for the entry count
`N`; `length` reports the length of `ks`; `ks` has no duplicates and its
elements are exactly the keys under which the store holds a value. -/
theorem getAllKeys_every_key_once (h : Host) (w : World) (cb : CallbackId)
    (hs : h.supportLocalStorage = true) (hwf : WF w.store) :
    ∃ ks : List (Option String),
      (storage.getAllKeys h cb w).2.delivered = w.delivered ++ [(cb, ⟨SUCCESS, .arr ks⟩)] ∧
      ks = (List.range w.store.length).map (fun i => (localStorage.key i w).1) ∧
      (storage.length h cb w).2.delivered
        = w.delivered ++ [(cb, ⟨SUCCESS, .num ks.length⟩)] ∧
      ks.Nodup ∧
      (∀ x : Option String,
        x ∈ ks ↔ ∃ k : String, x = some k ∧ (lookup k w.store).isSome = true) := by
  refine ⟨(keys w.store).map some, ?_, ?_, ?_, ?_, ?_⟩
  · simp [storage.getAllKeys, hs, sender.performCallback, (getAllKeys_loop_zero w).1,
      (getAllKeys_loop_zero w).2.2.1]
  · have := map_some_eq_range_get? (keys w.store)
    simpa [keys, localStorage.key] using this
  · simp [storage.length, hs, localStorage.length, sender.performCallback, keys]
  · exact hwf.map (Option.some_injective _)
  · intro x
    constructor
    · intro hx
      obtain ⟨k, hk, rfl⟩ := List.mem_map.mp hx
      exact ⟨k, rfl, (mem_keys_iff_lookup k w.store).mp hk⟩
    · rintro ⟨k, rfl, hk⟩
      exact List.mem_map_of_mem _ ((mem_keys_iff_lookup k w.store).mpr hk)

/-- C8 on a store holding `a`, `b` and `e`. -/
theorem getAllKeys_every_key_once_witness :
    WF sampleWorld.store ∧
    ∃ ks : List (Option String),
      (storage.getAllKeys hostOk "cb" sampleWorld).2.delivered
        = sampleWorld.delivered ++ [("cb", ⟨SUCCESS, .arr ks⟩)] ∧
      ks = [some "a", some "b", some "e"] ∧
      (storage.length hostOk "cb" sampleWorld).2.delivered
        = sampleWorld.delivered ++ [("cb", ⟨SUCCESS, .num 3⟩)] := by
  refine ⟨by decide, ?_⟩
  obtain ⟨ks, hd, hks, hl, _, _⟩ :=
    getAllKeys_every_key_once hostOk sampleWorld "cb" rfl (by decide)
  have hks2 : ks = [some "a", some "b", some "e"] := by rw [hks]; decide
  refine ⟨ks, hd, hks2, ?_⟩
  rw [hl, hks2]; rfl

/-- C9 as stated fails for a held key that is empty: on a store holding one
value under the empty key, `length` reports 1, `removeItem("", cb1)` is
answered `{failed, invalid_param}` by the guard of line 86, and `length` still
reports 1 rather than 0. -/
theorem removeItem_existing_empty_key_keeps_length :
    "" ∈ keys emptyKeyWorld.store ∧
    (storage.length hostOk "cb" emptyKeyWorld).2.delivered = [("cb", ⟨SUCCESS, .num 1⟩)] ∧
    (storage.length hostOk "cb"
        (storage.removeItem hostOk (some "") "cb1" emptyKeyWorld).2).2.delivered
      = [("cb1", ⟨FAILED, .str INVALID_PARAM⟩), ("cb", ⟨SUCCESS, .num 1⟩)] ∧
    (storage.length hostOk "cb"
        (storage.removeItem hostOk (some "") "cb1" emptyKeyWorld).2).2.delivered
      ≠ [("cb1", ⟨SUCCESS, .str UNDEFINED⟩), ("cb", ⟨SUCCESS, .num (1 - 1)⟩)] := by
  decide

/-- C9, amended: with the store available and its keys distinct, `length`
delivers `{success, N}` with `N` the number of keys held; after a `setItem`
with non-empty arguments whose write does not raise it reports `N + 1` when
the key was absent and `N` when it was held; after `removeItem` of a held,
non-empty key it reports `N - 1`, with `1 ≤ N`. -/
theorem length_counts_keys (h : Host) (w : World) (cb : CallbackId)
    (hs : h.supportLocalStorage = true) (hwf : WF w.store) :
    (storage.length h cb w).2.delivered
        = w.delivered ++ [(cb, ⟨SUCCESS, .num (keys w.store).toFinset.card⟩)] ∧
    (∀ (k v : String) (cb1 : CallbackId), k ≠ "" → v ≠ "" →
      h.writeError w.store k v = none →
      (storage.length h cb (storage.setItem h (some k) (some v) cb1 w).2).2.delivered
        = w.delivered ++ [(cb1, ⟨SUCCESS, .str UNDEFINED⟩),
            (cb, ⟨SUCCESS, .num (if k ∈ keys w.store then (keys w.store).toFinset.card
                                  else (keys w.store).toFinset.card + 1)⟩)]) ∧
    (∀ (k : String) (cb1 : CallbackId), k ≠ "" → k ∈ keys w.store →
      1 ≤ (keys w.store).toFinset.card ∧
      (storage.length h cb (storage.removeItem h (some k) cb1 w).2).2.delivered
        = w.delivered ++ [(cb1, ⟨SUCCESS, .str UNDEFINED⟩),
            (cb, ⟨SUCCESS, .num ((keys w.store).toFinset.card - 1)⟩)]) := by
  have hcard : (keys w.store).toFinset.card = w.store.length := by
    rw [List.toFinset_card_of_nodup hwf]; simp [keys]
  refine ⟨?_, ?_, ?_⟩
  · simp [storage.length, hs, localStorage.length, sender.performCallback, hcard]
  · intro k v cb1 hk hv hw
    simp [storage.length, storage.setItem, hs, truthy, hk, hv, toStr, localStorage.setItem, hw,
      localStorage.length, sender.performCallback, length_upsert, hcard]
  · intro k cb1 hk hmem
    have hlen := length_erase_of_mem k w.store hwf hmem
    refine ⟨by omega, ?_⟩
    have hsub : (erase k w.store).length = w.store.length - 1 := by omega
    simp [storage.length, storage.removeItem, hs, truthy, hk, toStr, localStorage.removeItem,
      localStorage.length, sender.performCallback, hcard, hsub]

/-- The amended C9 on a store of three keys: an update, an addition and a removal. -/
theorem length_counts_keys_witness :
    WF sampleWorld.store ∧
    (storage.length hostOk "cb" sampleWorld).2.delivered = [("cb", ⟨SUCCESS, .num 3⟩)] ∧
    (storage.length hostOk "cb"
        (storage.setItem hostOk (some "a") (some "9") "cb1" sampleWorld).2).2.delivered
      = [("cb1", ⟨SUCCESS, .str UNDEFINED⟩), ("cb", ⟨SUCCESS, .num 3⟩)] ∧
    (storage.length hostOk "cb"
        (storage.setItem hostOk (some "c") (some "3") "cb1" sampleWorld).2).2.delivered
      = [("cb1", ⟨SUCCESS, .str UNDEFINED⟩), ("cb", ⟨SUCCESS, .num 4⟩)] ∧
    (storage.length hostOk "cb"
        (storage.removeItem hostOk (some "a") "cb1" sampleWorld).2).2.delivered
      = [("cb1", ⟨SUCCESS, .str UNDEFINED⟩), ("cb", ⟨SUCCESS, .num 2⟩)] := by
  have t := length_counts_keys hostOk sampleWorld "cb" rfl (by decide)
  refine ⟨by decide, ?_, ?_, ?_, ?_⟩
  · rw [t.1]; decide
  · rw [t.2.1 "a" "9" "cb1" (by decide) (by decide) rfl]; decide
  · rw [t.2.1 "c" "3" "cb1" (by decide) (by decide) rfl]; decide
  · rw [(t.2.2 "a" "cb1" (by decide) (by decide)).2]; decide

/-- C10: whether or not the store is available, `setItem` with an empty or
absent key or value, and `getItem` and `removeItem` with an empty or absent
key, leave the entries as they were and issue no call to the store. -/
theorem invalid_arguments_leave_store_untouched (h : Host) (w : World)
    (key value key2 : Option String) (cb : CallbackId)
    (hbad : truthy key = false ∨ truthy value = false) (hbad2 : truthy key2 = false) :
    ((storage.setItem h key value cb w).2.store = w.store ∧
      (storage.setItem h key value cb w).2.accesses = w.accesses) ∧
    ((storage.getItem h key2 cb w).2.store = w.store ∧
      (storage.getItem h key2 cb w).2.accesses = w.accesses) ∧
    ((storage.removeItem h key2 cb w).2.store = w.store ∧
      (storage.removeItem h key2 cb w).2.accesses = w.accesses) := by
  have hor : (!truthy key || !truthy value) = true := by
    rcases hbad with hb | hb <;> simp [hb]
  cases hs : h.supportLocalStorage <;>
    simp [storage.setItem, storage.getItem, storage.removeItem, hs, hor, hbad2,
      sender.performCallback, logger.error]

/-- C10 at `setItem("k", "")`, `getItem("")` and `removeItem("")` on a store
that holds a value under the empty key. -/
theorem invalid_arguments_leave_store_untouched_witness :
    ((storage.setItem hostOk (some "k") (some "") "cb" emptyKeyWorld).2.store
        = emptyKeyWorld.store ∧
      (storage.setItem hostOk (some "k") (some "") "cb" emptyKeyWorld).2.accesses
        = emptyKeyWorld.accesses) ∧
    ((storage.getItem hostOk (some "") "cb" emptyKeyWorld).2.store = emptyKeyWorld.store ∧
      (storage.getItem hostOk (some "") "cb" emptyKeyWorld).2.accesses
        = emptyKeyWorld.accesses) ∧
    ((storage.removeItem hostOk (some "") "cb" emptyKeyWorld).2.store = emptyKeyWorld.store ∧
      (storage.removeItem hostOk (some "") "cb" emptyKeyWorld).2.accesses
        = emptyKeyWorld.accesses) :=
  invalid_arguments_leave_store_untouched hostOk emptyKeyWorld (some "k") (some "") (some "")
    "cb" (Or.inr (by decide)) (by decide)

end Weex
